import Mathlib

/-!
Verification of the SmartPantry authentication layer
(src/backend/app/core/auth.py, src/backend/app/core/auth_b2c.py,
src/backend/app/models/user.py) against its specification.

The Python code is shallowly embedded: dictionaries of JWT claims become
association lists over an inductive value type `Val`; wall-clock time is an
explicit `Int` parameter (seconds); library behaviour (python-jose, PyJWT,
passlib, pydantic) is modelled by executable Lean functions whose doc
comments state the library semantics they capture; exceptions become
`Except` / `Option` results.
-/

/-- Python values occurring in JWT claim dictionaries: strings, integers
(timestamps), lists of strings (the B2C `emails` claim) and `None`. -/
inductive Val where
  | vStr (s : String)
  | vInt (n : Int)
  | vList (l : List String)
  | vNull
deriving DecidableEq

/-- A Python dict with string keys, as an association list (first match wins,
no duplicate keys are ever produced by the modelled operations). -/
abbrev Dict := List (String × Val)

/-- Python `d[k]` lookup result, `none` when the key is absent. -/
def dget (d : Dict) (k : String) : Option Val :=
  match d with
  | [] => none
  | (k', v) :: rest => if k' = k then some v else dget rest k

/-- Python `d[k] = v` / `d.update({k: v})`: replaces the binding in place if
the key is present, otherwise appends it. -/
def dset (d : Dict) (k : String) (v : Val) : Dict :=
  match d with
  | [] => [(k, v)]
  | (k', v') :: rest => if k' = k then (k, v) :: rest else (k', v') :: dset rest k v

/-- Python `d.get(k)`: the value, or `None` when absent. -/
def pyGet (d : Dict) (k : String) : Val :=
  (dget d k).getD .vNull

/-- Python `d.get(k, default)`. -/
def pyGetD (d : Dict) (k : String) (dv : Val) : Val :=
  (dget d k).getD dv

/-- Python truthiness of a `Val`: `None`, `""`, `0` and `[]` are falsy. -/
def py_truthy : Val → Bool
  | .vNull => false
  | .vStr s => !s.data.isEmpty
  | .vInt n => n != 0
  | .vList l => !l.isEmpty

/-- Python `a or b`: `a` if truthy, else `b`. -/
def py_or (a b : Val) : Val :=
  if py_truthy a then a else b

namespace settings

/-- config.py: `secret_key` default. -/
def secret_key : String := "your-secret-key-here"

/-- config.py: `algorithm` default. -/
def algorithm : String := "HS256"

/-- config.py: `access_token_expire_minutes` default. -/
def access_token_expire_minutes : Int := 30

end settings

/-- A locally issued JWT, abstracted as its claim set together with the key
and algorithm it was signed with; `malformed` covers strings that are not
structurally a JWT at all. -/
inductive Jwt where
  | signed (claims : Dict) (key : String) (alg : String)
  | malformed (raw : String)
deriving DecidableEq

/-- The claim set carried by a token (empty for a malformed one). -/
def claims_of : Jwt → Dict
  | .signed c _ _ => c
  | .malformed _ => []

/-- Model of `jose.jwt.decode(token, key, algorithms=algs)` evaluated at
wall-clock time `now` (seconds): fails on a malformed token, on an algorithm
outside the allowed list, or on a signature made with a different key; then
validates the `exp` claim (expired when `exp < now`, with jose's default zero
leeway; a missing `exp` is not checked, a non-integer `exp` raises). All
failures raise a `JWTError` subclass, reported here as `none`. -/
def jose_decode (tok : Jwt) (key : String) (algs : List String) (now : Int) : Option Dict :=
  match tok with
  | .malformed _ => none
  | .signed c k a =>
    if k = key ∧ a ∈ algs then
      match dget c "exp" with
      | none => some c
      | some (.vInt e) => if e < now then none else some c
      | some _ => none
    else none

/-- auth.py:40-46 `verify_token`: decodes with the process secret and
algorithm, returning the payload, and converts any `JWTError` to `None`. -/
def verify_token (tok : Jwt) (now : Int) : Option Dict :=
  jose_decode tok settings.secret_key [settings.algorithm] now

/-- The `expire` computation of auth.py:31-34: `if expires_delta:` is a Python
truthiness test, so both `None` and a zero delta fall back to the configured
default lifetime (a `timedelta` of zero duration is falsy). -/
def token_expiry (expires_delta : Option Int) (now : Int) : Int :=
  match expires_delta with
  | some d => if d = 0 then now + settings.access_token_expire_minutes * 60 else now + d
  | none => now + settings.access_token_expire_minutes * 60

/-- auth.py:28-38 `create_access_token`: works on `data.copy()`, overwrites
`exp` with the computed expiry, and signs with the process secret and
algorithm. The second component of the result is the caller's dictionary
after the call (unchanged, because of the copy). -/
def create_access_token (data : Dict) (expires_delta : Option Int) (now : Int) : Jwt × Dict :=
  let to_encode := dset data "exp" (.vInt (token_expiry expires_delta now))
  (Jwt.signed to_encode settings.secret_key settings.algorithm, data)

/-- Errors a modelled Python computation can raise: pydantic
`ValidationError`, a `TypeError`/`AttributeError` from operating on a value
of the wrong type, or an explicitly raised `HTTPException`. -/
inductive PyErr where
  | validationError
  | typeError
  | http (status : Nat) (detail : String)
deriving DecidableEq

/-- An HTTP error response (`fastapi.HTTPException`): status code and detail
message. -/
structure HttpError where
  status : Nat
  detail : String
deriving DecidableEq

/-- models/user.py:17-25 `User`: the validated model instance. Datetimes are
modelled as integer timestamps. -/
structure User where
  id : String
  email : String
  name : String
  household_id : Option String
  preferences : Dict
  created_at : Int
  updated_at : Int
deriving DecidableEq

/-- Splitting a character list at every occurrence of a separator character
(the single-character case of Python's `str.split(sep)`). -/
def split_at_char (c : Char) : List Char → List (List Char)
  | [] => [[]]
  | x :: xs =>
    let r := split_at_char c xs
    if x = c then [] :: r
    else
      match r with
      | [] => [[x]]
      | h :: t => (x :: h) :: t

/-- Approximation of pydantic `EmailStr` validation: a single `@` separating
a nonempty local part from a domain that has at least two nonempty
dot-separated labels. Every e-mail string evaluated in this development is
clearly valid or clearly invalid under both this predicate and the real
validator. -/
def valid_email (s : String) : Bool :=
  match split_at_char '@' s.data with
  | [lp, dom] =>
    !lp.isEmpty && !dom.isEmpty &&
    decide (2 ≤ (split_at_char '.' dom).length) &&
    (split_at_char '.' dom).all (fun p => !p.isEmpty)
  | _ => false

/-- Pydantic validation of a required `str` field: the keyword argument must
be supplied and be a string. -/
def req_str : Option Val → Except PyErr String
  | some (.vStr s) => .ok s
  | _ => .error .validationError

/-- Pydantic validation of an `Optional[str]` field with default `None`: an
absent keyword argument or an explicit `None` both yield `none`. -/
def opt_str : Option Val → Except PyErr (Option String)
  | none => .ok none
  | some .vNull => .ok none
  | some (.vStr s) => .ok (some s)
  | some _ => .error .validationError

/-- Pydantic validation of a required `datetime` field: the keyword argument
must be supplied and be a timestamp; in particular a missing field is a
`ValidationError`. -/
def req_datetime : Option Val → Except PyErr Int
  | some (.vInt t) => .ok t
  | _ => .error .validationError

/-- Pydantic construction `User(...)` (models/user.py:17-25): `id`, `email`
(an `EmailStr`), `name` (length 1..100), `created_at` and `updated_at` are
required fields without defaults; `household_id` defaults to `None` and
`preferences` to an empty dict. An argument of `none` means the keyword was
not passed at the call site. Extra keywords (such as the `householdId`
passed in auth_b2c.py:114) are ignored by pydantic's default config and are
therefore not modelled. -/
def user_model_validate (i e n h : Option Val) (p : Option Dict) (c u : Option Val) :
    Except PyErr User :=
  match req_str i with
  | .error err => .error err
  | .ok iv =>
    match req_str e with
    | .error err => .error err
    | .ok ev =>
      if valid_email ev = false then .error .validationError
      else
        match req_str n with
        | .error err => .error err
        | .ok nv =>
          if nv.length < 1 ∨ 100 < nv.length then .error .validationError
          else
            match opt_str h with
            | .error err => .error err
            | .ok hv =>
              match req_datetime c with
              | .error err => .error err
              | .ok cv =>
                match req_datetime u with
                | .error err => .error err
                | .ok uv => .ok ⟨iv, ev, nv, hv, p.getD [], cv, uv⟩

/-- auth.py:50-54: the shared 401 response. -/
def credentials_exception : HttpError :=
  ⟨401, "Could not validate credentials"⟩

/-- auth.py:48-79 `get_current_user`: verifies the bearer token, rejects a
missing `sub`, then builds a `User` directly from the claims — passing only
`id`, `email`, `name` and `household_id` to the model, so the required
`created_at`/`updated_at` fields are absent. The surrounding
`except Exception` converts any error (including the pydantic
`ValidationError`) into the 401 `credentials_exception`. No database access
occurs anywhere in the function. -/
def get_current_user (cred : Jwt) (now : Int) : Except HttpError User :=
  match verify_token cred now with
  | none => .error credentials_exception
  | some payload =>
    if pyGet payload "sub" = Val.vNull then .error credentials_exception
    else
      match user_model_validate (some (pyGet payload "sub"))
          (some (pyGetD payload "email" (.vStr "")))
          (some (pyGetD payload "name" (.vStr "")))
          (some (pyGet payload "household_id")) none none none with
      | .ok u => .ok u
      | .error _ => .error credentials_exception

/-- A JSON Web Key Set fetched from the discovery endpoint, abstracted as the
list of key identifiers it contains. -/
abbrev Jwks := List String

/-- Outcome of one HTTP GET against the discovery endpoint: the body on
success, or any network/HTTP failure. -/
inductive FetchResult where
  | ok (j : Jwks)
  | fail
deriving DecidableEq

/-- auth_b2c.py:24-37 `AzureADB2CAuth.get_jwks`: when `self._jwks` is already
populated it is returned as is, without any network activity; when it is
`None` one fetch is performed (its outcome is the `fetch` parameter, standing
for the network): on success the body is assigned to `self._jwks` and
returned, on failure a 500 "Authentication service unavailable" is raised and
`self._jwks` is left untouched (still `None`). The result is
(returned value or error, cache afterwards, whether a fetch was attempted). -/
def b2c_get_jwks (cache : Option Jwks) (fetch : FetchResult) :
    Except HttpError Jwks × Option Jwks × Bool :=
  match cache with
  | some j => (.ok j, some j, false)
  | none =>
    match fetch with
    | .ok j => (.ok j, some j, true)
    | .fail => (.error ⟨500, "Authentication service unavailable"⟩, none, true)

/-- True when a `b2c_get_jwks` call both attempted a fetch and returned
successfully, i.e. when the discovery endpoint was actually read. -/
def fetch_succeeded (r : Except HttpError Jwks × Option Jwks × Bool) : Bool :=
  r.2.2 && (match r.1 with | .ok _ => true | .error _ => false)

/-- A sequence of `get_jwks` calls against the same `AzureADB2CAuth` instance,
one network outcome per call; returns the final cache and the number of calls
whose fetch succeeded. -/
def run_get_jwks (cache : Option Jwks) (fs : List FetchResult) : Option Jwks × Nat :=
  match fs with
  | [] => (cache, 0)
  | f :: rest =>
    let r := b2c_get_jwks cache f
    let t := run_get_jwks r.2.1 rest
    (t.1, (if fetch_succeeded r then 1 else 0) + t.2)

/-- A bearer token presented to the federated verifier: either its header
parses and carries a key identifier, or `jwt.get_unverified_header` raises a
`DecodeError`. -/
inductive FedToken where
  | headerKid (kid : String)
  | garbled (raw : String)
deriving DecidableEq

/-- auth_b2c.py:39-94 `AzureADB2CAuth.verify_token`. After the header is
parsed, line 46 runs `jwks = self.get_jwks()`; `get_jwks` is declared
`async def` and `verify_token` is a synchronous method, so the call returns a
coroutine object without executing the body — no HTTP fetch happens. Line 50
then evaluates `jwks.get('keys', [])`, and a coroutine object has no `get`
attribute, so an `AttributeError` is raised; it reaches the final
`except Exception` handler (line 89) which raises a 401 "Token verification
failed". The key lookup, `jwt.decode`, and the `ExpiredSignatureError` /
`InvalidTokenError` handlers below it are unreachable. An unparseable token
raises `jwt.DecodeError` (a subclass of `InvalidTokenError`) from
`get_unverified_header`, which the `InvalidTokenError` handler maps to a 401
"Invalid token". The result is (response, JWKS cache afterwards, number of
JWKS fetches performed). -/
def b2c_verify_token (cache : Option Jwks) (token : FedToken) :
    Except HttpError Dict × Option Jwks × Nat :=
  match token with
  | .garbled _ => (.error ⟨401, "Invalid token"⟩, cache, 0)
  | .headerKid _ => (.error ⟨401, "Token verification failed"⟩, cache, 0)

/-- The internal failure causes `jwt.decode` can raise in
`AzureADB2CAuth.verify_token` when a signature, audience, issuer or expiry
check fails. -/
inductive DecodeFailure where
  | expiredSignature
  | invalidAudience
  | invalidIssuer
  | invalidSignature
deriving DecidableEq

/-- The `except` handlers of auth_b2c.py:78-94: `jwt.ExpiredSignatureError`
is caught first and mapped to a 401 "Token has expired";
`InvalidAudienceError`, `InvalidIssuerError` and `InvalidSignatureError` are
subclasses of `jwt.InvalidTokenError` and are mapped to a 401
"Invalid token". -/
def verify_exception_response : DecodeFailure → HttpError
  | .expiredSignature => ⟨401, "Token has expired"⟩
  | .invalidAudience => ⟨401, "Invalid token"⟩
  | .invalidIssuer => ⟨401, "Invalid token"⟩
  | .invalidSignature => ⟨401, "Invalid token"⟩

/-- Python attribute/method access that requires a string (`v.strip()`):
returns the string with leading and trailing whitespace removed, or an
`AttributeError` for a non-string. -/
def py_strip : Val → Except PyErr String
  | .vStr s =>
    .ok (String.mk (((s.data.dropWhile Char.isWhitespace).reverse.dropWhile
      Char.isWhitespace).reverse))
  | _ => .error .typeError

/-- Python `v + ...` string concatenation operand: must be a string. -/
def py_as_str : Val → Except PyErr String
  | .vStr s => .ok s
  | _ => .error .typeError

/-- Python `v[0]`: first element of a list (a `vList` element is a string),
or first character of a nonempty string; anything else raises. -/
def py_index0 : Val → Except PyErr Val
  | .vList (e :: _) => .ok (.vStr e)
  | .vList [] => .error .typeError
  | .vStr s =>
    if s.data.isEmpty then .error .typeError else .ok (.vStr (String.mk (s.data.take 1)))
  | _ => .error .typeError

/-- Python f-string rendering of a `Val`, as used by
`f"{user_id}@b2c.local"`; only the string case is ever exercised by the
theorems below. -/
def py_format : Val → String
  | .vStr s => s
  | .vInt n => toString n
  | .vNull => "None"
  | .vList _ => "[...]"

/-- auth_b2c.py:100-102, the field extraction at the top of
`get_user_from_token`:
`user_id = payload.get('sub') or payload.get('oid')`;
`email = payload.get('emails', [None])[0] if payload.get('emails') else
payload.get('email')` (the `[None]` default is dead: the guard already
required the claim to be present and truthy);
`name = payload.get('name') or payload.get('given_name', '') + ' ' +
payload.get('family_name', '')` (`or` short-circuits, so the concatenation
only runs when the `name` claim is falsy). -/
def b2c_user_fields (payload : Dict) : Except PyErr (Val × Val × Val) := do
  let user_id := py_or (pyGet payload "sub") (pyGet payload "oid")
  let email ←
    if py_truthy (pyGet payload "emails") then py_index0 (pyGet payload "emails")
    else pure (pyGet payload "email")
  let nameV ←
    if py_truthy (pyGet payload "name") then pure (pyGet payload "name")
    else do
      let gn ← py_as_str (pyGetD payload "given_name" (.vStr ""))
      let fn ← py_as_str (pyGetD payload "family_name" (.vStr ""))
      pure (Val.vStr (gn ++ " " ++ fn))
  pure (user_id, email, nameV)

/-- The body of the `try` block of auth_b2c.py:96-120 `get_user_from_token`:
extract the fields, raise a 401 "Invalid token: missing user ID" for a falsy
user id, then construct
`User(id=user_id, email=email or f"{user_id}@b2c.local",
name=name.strip() or "B2C User", householdId=None, preferences={...})`.
`household_id` is never passed (only the ignored extra key `householdId`),
and `created_at`/`updated_at` are not passed either. -/
def b2c_user_construction (payload : Dict) : Except PyErr User := do
  let f ← b2c_user_fields payload
  if py_truthy f.1 = false then
    throw (PyErr.http 401 "Invalid token: missing user ID")
  else do
    let stripped ← py_strip f.2.2
    let nameArg := if stripped.isEmpty then "B2C User" else stripped
    let emailArg := py_or f.2.1 (.vStr (py_format f.1 ++ "@b2c.local"))
    user_model_validate (some f.1) (some emailArg) (some (.vStr nameArg)) none
      (some [("notificationDays", .vInt 3), ("theme", .vStr "dark"),
             ("units", .vStr "imperial")])
      none none

/-- auth_b2c.py:96-127 `get_user_from_token`: the `try` body above, with the
`except Exception` handler (which also catches the `HTTPException` raised
inside the `try`, since `HTTPException` subclasses `Exception`) converting
every failure into a 401 "Invalid token payload". -/
def b2c_get_user_from_token (payload : Dict) : Except HttpError User :=
  match b2c_user_construction payload with
  | .ok u => .ok u
  | .error _ => .error ⟨401, "Invalid token payload"⟩

/-- auth_b2c.py:132-146 `get_current_user`: verify the token, then map the
payload to a user; an `HTTPException` from either step is re-raised as is
(the catch-all 401 "Authentication failed" branch is unreachable in this
model, as both callees only raise `HTTPException`). -/
def b2c_get_current_user (cache : Option Jwks) (cred : FedToken) : Except HttpError User :=
  match (b2c_verify_token cache cred).1 with
  | .error e => .error e
  | .ok payload => b2c_get_user_from_token payload

/-- auth_b2c.py:148-155 `get_optional_user`: `None` when no credentials are
presented, otherwise the result of `get_current_user`, with any
`HTTPException` swallowed into `None`. The function is total: it has no
error channel. -/
def get_optional_user (cache : Option Jwks) (cred : Option FedToken) : Option User :=
  match cred with
  | none => none
  | some t =>
    match b2c_get_current_user cache t with
    | .error _ => none
    | .ok u => some u

/-- A stored password hash string: either a well-formed bcrypt digest
(abstracted as its salt and the password it digests) or a string that no
configured hasher recognizes. -/
inductive StoredHash where
  | bcrypt (salt : Nat) (pw : String)
  | unrecognized (raw : String)
deriving DecidableEq

/-- The error channel of passlib. -/
inductive PasslibError where
  | unknownHash
deriving DecidableEq

/-- Model of `CryptContext(schemes=["bcrypt"]).verify(plain, hashed)`
(passlib): when the stored string cannot be identified as a hash of any
configured scheme, passlib raises `UnknownHashError` (a `ValueError`) rather
than returning `False`; for a well-formed bcrypt hash it re-digests the
candidate with the recorded salt and compares, returning a boolean. -/
def pwd_context_verify (plain : String) (hashed : StoredHash) : Except PasslibError Bool :=
  match hashed with
  | .bcrypt _ pw => .ok (plain == pw)
  | .unrecognized _ => .error .unknownHash

/-- auth.py:20-22 `verify_password`: returns `pwd_context.verify(...)`
directly, with no exception handling, so a passlib error propagates to the
caller. -/
def verify_password (plain : String) (hashed : StoredHash) : Except PasslibError Bool :=
  pwd_context_verify plain hashed

theorem dget_dset_self (d : Dict) (k : String) (v : Val) : dget (dset d k v) k = some v := by
  induction d with
  | nil => simp [dset, dget]
  | cons p rest ih =>
    obtain ⟨k', v'⟩ := p
    by_cases h : k' = k
    · simp [dset, dget, h]
    · simp [dset, dget, h, ih]

theorem dget_dset_ne (d : Dict) (k k' : String) (v : Val) (h : k' ≠ k) :
    dget (dset d k v) k' = dget d k' := by
  induction d with
  | nil => simp [dset, dget, Ne.symm h]
  | cons p rest ih =>
    obtain ⟨k0, v0⟩ := p
    by_cases h0 : k0 = k
    · subst h0
      simp [dset, dget, Ne.symm h]
    · by_cases h1 : k0 = k'
      · simp [dset, dget, h0, h1, h]
      · simp [dset, dget, h0, h1, ih]

theorem run_get_jwks_populated (j : Jwks) (fs : List FetchResult) :
    run_get_jwks (some j) fs = (some j, 0) := by
  induction fs with
  | nil => rfl
  | cons f rest ih => simp [run_get_jwks, b2c_get_jwks, fetch_succeeded, ih]

theorem run_get_jwks_succ_le_one (cache : Option Jwks) (fs : List FetchResult) :
    (run_get_jwks cache fs).2 ≤ 1 := by
  induction fs generalizing cache with
  | nil => simp [run_get_jwks]
  | cons f rest ih =>
    cases cache with
    | some j => simp [run_get_jwks, b2c_get_jwks, fetch_succeeded, run_get_jwks_populated]
    | none =>
      cases f with
      | ok j =>
        simp [run_get_jwks, b2c_get_jwks, fetch_succeeded, run_get_jwks_populated]
      | fail =>
        simpa [run_get_jwks, b2c_get_jwks, fetch_succeeded] using ih none

theorem user_model_validate_missing_created (i e n h : Option Val) (p : Option Dict)
    (u : Option Val) : ∃ err, user_model_validate i e n h p none u = .error err := by
  unfold user_model_validate
  cases req_str i with
  | error err => exact ⟨err, rfl⟩
  | ok iv =>
    cases req_str e with
    | error err => exact ⟨err, rfl⟩
    | ok ev =>
      by_cases hv : valid_email ev = false
      · exact ⟨.validationError, by simp [hv]⟩
      · cases hn : req_str n with
        | error err => exact ⟨err, by simp only [if_neg hv, hn]⟩
        | ok nv =>
          by_cases hl : nv.length < 1 ∨ 100 < nv.length
          · exact ⟨.validationError, by simp only [if_neg hv, hn, if_pos hl]⟩
          · cases hh : opt_str h with
            | error err => exact ⟨err, by simp only [if_neg hv, hn, if_neg hl, hh]⟩
            | ok hv2 =>
              exact ⟨.validationError, by simp only [if_neg hv, hn, if_neg hl, hh, req_datetime]⟩

theorem get_current_user_always_errors (tok : Jwt) (now : Int) :
    ∃ e, get_current_user tok now = .error e := by
  unfold get_current_user
  cases hv : verify_token tok now with
  | none => exact ⟨credentials_exception, rfl⟩
  | some payload =>
    by_cases hs : pyGet payload "sub" = Val.vNull
    · exact ⟨credentials_exception, by simp [hs]⟩
    · obtain ⟨err, herr⟩ := user_model_validate_missing_created
        (some (pyGet payload "sub")) (some (pyGetD payload "email" (.vStr "")))
        (some (pyGetD payload "name" (.vStr ""))) (some (pyGet payload "household_id"))
        none none
      exact ⟨credentials_exception, by simp [hs, herr]⟩

/-- The token used as the concrete failing input for the local resolver: a
locally issued token for subject `"u1"` with e-mail and name claims and a
3600-second lifetime, issued at time 0. -/
def c1_token : Jwt :=
  (create_access_token [("sub", Val.vStr "u1"), ("email", Val.vStr "u1@example.com"),
      ("name", Val.vStr "User One")] (some 3600) 0).1

/-- The payload `c1_token` verifies to at time 10 (well before expiry). -/
def c1_payload : Dict :=
  [("sub", Val.vStr "u1"), ("email", Val.vStr "u1@example.com"),
   ("name", Val.vStr "User One"), ("exp", Val.vInt 3600)]

/-- C1: the claim states that `get_current_user` either rejects with 401
(when `verify_token` fails or `sub` is missing) or succeeds and builds the
user directly from the embedded claims with no database lookup. The code
instead rejects every token: the `User` model declares `created_at` and
`updated_at` as required fields, `get_current_user` never supplies them, so
the construction always raises a pydantic `ValidationError`, which the
blanket `except` turns into the 401. At the concrete input below the token
verifies and carries `sub = "u1"`, yet the result is the 401; the final
conjunct shows no token at any time can ever be accepted. -/
theorem get_current_user_rejects_valid_token :
    verify_token c1_token 10 = some c1_payload
    ∧ dget c1_payload "sub" = some (Val.vStr "u1")
    ∧ get_current_user c1_token 10 = Except.error credentials_exception
    ∧ (∀ tok now, ∃ e, get_current_user tok now = Except.error e) :=
  ⟨rfl, rfl, rfl, get_current_user_always_errors⟩

/-- C2: issuing a token over claims `c` with a positive ttl `t` at time `now`
and verifying it at `now'` succeeds with the claims of `c` (with `exp`
overwritten to `now + t`) while `now' ≤ now + t`, and fails once
`now + t < now'`; a `sub` claim of `c` survives into the verified payload. -/
theorem create_verify_round_trip (c : Dict) (t now now' : Int) (ht : 0 < t) :
    (now' ≤ now + t →
      verify_token (create_access_token c (some t) now).1 now' =
        some (dset c "exp" (.vInt (now + t))))
    ∧ (now + t < now' → verify_token (create_access_token c (some t) now).1 now' = none)
    ∧ (∀ s, dget c "sub" = some s → dget (dset c "exp" (.vInt (now + t))) "sub" = some s) := by
  have hne : t ≠ 0 := by omega
  have hx : token_expiry (some t) now = now + t := by simp [token_expiry, hne]
  refine ⟨?_, ?_, ?_⟩
  · intro hle
    simp [create_access_token, hx, verify_token, jose_decode, settings.secret_key,
      settings.algorithm, dget_dset_self]
    omega
  · intro hlt
    simp [create_access_token, hx, verify_token, jose_decode, settings.secret_key,
      settings.algorithm, dget_dset_self]
    omega
  · intro s hs
    rw [dget_dset_ne c "exp" "sub" _ (by decide)]
    exact hs

theorem create_verify_round_trip_witness :
    verify_token (create_access_token [("sub", Val.vStr "u1")] (some 1) 0).1 0 =
      some [("sub", Val.vStr "u1"), ("exp", Val.vInt 1)]
    ∧ verify_token (create_access_token [("sub", Val.vStr "u1")] (some 1) 0).1 2 = none := by
  have h0 := create_verify_round_trip [("sub", Val.vStr "u1")] 1 0 0 (by decide)
  have h2 := create_verify_round_trip [("sub", Val.vStr "u1")] 1 0 2 (by decide)
  exact ⟨by simpa using h0.1 (by decide), h2.2.1 (by decide)⟩

/-- C3: the claim states that a federated token whose `kid` misses the cached
key set triggers exactly one JWKS fetch and is rejected as 401
"Invalid token". The code never fetches at all: `verify_token` calls the
async `get_jwks` without awaiting it, so the coroutine body never runs, and
`jwks.get('keys', [])` on the coroutine object raises `AttributeError`,
which the catch-all handler converts to a 401 "Token verification failed".
The first conjunct shows no call ever fetches or changes the cache; the
second evaluates the claim's own scenario (`kid="k1"`, cold cache). -/
theorem b2c_verify_token_never_fetches :
    (∀ cache token, (b2c_verify_token cache token).2.2 = 0
      ∧ (b2c_verify_token cache token).2.1 = cache)
    ∧ b2c_verify_token none (FedToken.headerKid "k1") =
        (Except.error ⟨401, "Token verification failed"⟩, none, 0) := by
  refine ⟨fun cache token => ?_, rfl⟩
  cases token <;> exact ⟨rfl, rfl⟩

/-- C4 counterexample: the two concrete responses below differ in their
detail message, so the message surfaced for an expired federated token
reveals which verification check failed, contrary to the claim that all
four failure causes surface with one generic message. -/
theorem verify_exception_response_distinguishes_expiry :
    verify_exception_response .expiredSignature = ⟨401, "Token has expired"⟩
    ∧ verify_exception_response .invalidSignature = ⟨401, "Invalid token"⟩ :=
  ⟨rfl, rfl⟩

/-- C4 amended: every signature, audience, issuer or expiry failure is
surfaced as a 401, and audience/issuer/signature failures share the generic
"Invalid token" detail, but an expiry failure carries the distinct
"Token has expired" detail; no claim contents appear in any message (each
response is a fixed constant). -/
theorem verify_exception_response_all_401 (f : DecodeFailure) :
    (verify_exception_response f).status = 401
    ∧ verify_exception_response .expiredSignature = ⟨401, "Token has expired"⟩
    ∧ verify_exception_response .invalidAudience = ⟨401, "Invalid token"⟩
    ∧ verify_exception_response .invalidIssuer = ⟨401, "Invalid token"⟩
    ∧ verify_exception_response .invalidSignature = ⟨401, "Invalid token"⟩ := by
  cases f <;> exact ⟨rfl, rfl, rfl, rfl, rfl⟩

/-- C5: the claim states that a verified federated payload with `oid="abc"`
and no email claims resolves to an identity with a synthesized e-mail
containing "abc" without failing. The field extraction does synthesize
`"abc@b2c.local"`, but the `User(...)` construction omits the required
`created_at`/`updated_at` fields, so pydantic raises a `ValidationError` and
`get_user_from_token` rejects the payload with a 401
"Invalid token payload" instead of succeeding. -/
theorem b2c_get_user_from_token_oid_only_rejected :
    b2c_user_fields [("oid", Val.vStr "abc")] =
      Except.ok (Val.vStr "abc", Val.vNull, Val.vStr " ")
    ∧ py_or Val.vNull (.vStr (py_format (Val.vStr "abc") ++ "@b2c.local")) =
        Val.vStr "abc@b2c.local"
    ∧ b2c_user_construction [("oid", Val.vStr "abc")] = Except.error PyErr.validationError
    ∧ b2c_get_user_from_token [("oid", Val.vStr "abc")] =
        Except.error ⟨401, "Invalid token payload"⟩ :=
  ⟨rfl, rfl, rfl, rfl⟩

/-- C6: across any sequence of `get_jwks` calls with any network outcomes,
at most one call reads the discovery endpoint successfully; a populated
cache is returned unchanged without even attempting a fetch; a failed fetch
leaves the cache unpopulated; and every call made while the cache is
unpopulated attempts the fetch again (no failure is cached). -/
theorem jwks_cache_fetch_at_most_once :
    (∀ cache fs, (run_get_jwks cache fs).2 ≤ 1)
    ∧ (∀ j f, b2c_get_jwks (some j) f = (Except.ok j, some j, false))
    ∧ (b2c_get_jwks none FetchResult.fail).2.1 = none
    ∧ (∀ f, (b2c_get_jwks none f).2.2 = true) := by
  refine ⟨run_get_jwks_succ_le_one, fun j f => rfl, rfl, fun f => ?_⟩
  cases f <;> rfl

/-- C7: the local `verify_token` is a total function into `Option`: it
returns the decoded claim set for a token signed with the process secret and
algorithm that is unexpired (or has no `exp` claim), and returns `None` —
rather than raising — for an expired token, for a token signed with a
different key or algorithm, and for a malformed token. -/
theorem verify_token_total_spec :
    (∀ c now, dget c "exp" = none →
      verify_token (.signed c settings.secret_key settings.algorithm) now = some c)
    ∧ (∀ c e now, dget c "exp" = some (.vInt e) → now ≤ e →
      verify_token (.signed c settings.secret_key settings.algorithm) now = some c)
    ∧ (∀ c e now, dget c "exp" = some (.vInt e) → e < now →
      verify_token (.signed c settings.secret_key settings.algorithm) now = none)
    ∧ (∀ c k a now, ¬(k = settings.secret_key ∧ a = settings.algorithm) →
      verify_token (.signed c k a) now = none)
    ∧ (∀ r now, verify_token (.malformed r) now = none) := by
  refine ⟨?_, ?_, ?_, ?_, fun r now => rfl⟩
  · intro c now hc
    simp [verify_token, jose_decode, hc]
  · intro c e now hc hle
    simp [verify_token, jose_decode, hc]
    omega
  · intro c e now hc hlt
    simp [verify_token, jose_decode, hc]
    omega
  · intro c k a now hk
    by_cases h1 : k = settings.secret_key
    · have h2 : a ≠ settings.algorithm := fun h2 => hk ⟨h1, h2⟩
      simp [verify_token, jose_decode, h1, h2]
    · simp [verify_token, jose_decode, h1]

theorem verify_token_total_spec_witness :
    verify_token (.signed [("sub", Val.vStr "u1")] settings.secret_key settings.algorithm) 5 =
      some [("sub", Val.vStr "u1")]
    ∧ verify_token (.signed [("exp", Val.vInt 10)] settings.secret_key settings.algorithm) 5 =
        some [("exp", Val.vInt 10)]
    ∧ verify_token (.signed [("exp", Val.vInt 10)] settings.secret_key settings.algorithm) 11 =
        none
    ∧ verify_token (.signed [] "some-other-key" settings.algorithm) 5 = none
    ∧ verify_token (.malformed "zzz") 5 = none :=
  ⟨verify_token_total_spec.1 [("sub", Val.vStr "u1")] 5 rfl,
   verify_token_total_spec.2.1 [("exp", Val.vInt 10)] 10 5 rfl (by decide),
   verify_token_total_spec.2.2.1 [("exp", Val.vInt 10)] 10 11 rfl (by decide),
   verify_token_total_spec.2.2.2.1 [] "some-other-key" settings.algorithm 5 (by decide),
   verify_token_total_spec.2.2.2.2 "zzz" 5⟩

/-- C8 counterexample: at the concrete input below — any plaintext checked
against a string no configured hasher recognizes — `verify_password`
propagates passlib's `UnknownHashError` instead of returning `false`, so the
claim that a malformed hash yields `false` is wrong on the code. -/
theorem verify_password_raises_on_malformed :
    verify_password "password" (StoredHash.unrecognized "not-a-hash") =
      Except.error PasslibError.unknownHash :=
  rfl

/-- C8 amended: against a well-formed bcrypt hash, `verify_password` returns
`false` on any mismatch and never raises; a hash string that no configured
scheme recognizes raises passlib's `UnknownHashError` (a `ValueError`)
rather than returning `false`. -/
theorem verify_password_mismatch_false (p pw : String) (s : Nat) (raw : String)
    (h : p ≠ pw) :
    verify_password p (StoredHash.bcrypt s pw) = Except.ok false
    ∧ verify_password p (StoredHash.unrecognized raw) =
        Except.error PasslibError.unknownHash := by
  constructor
  · simp [verify_password, pwd_context_verify, h]
  · rfl

theorem verify_password_mismatch_false_witness :
    verify_password "password1" (StoredHash.bcrypt 0 "password2") = Except.ok false
    ∧ verify_password "password1" (StoredHash.unrecognized "not-a-hash") =
        Except.error PasslibError.unknownHash :=
  verify_password_mismatch_false "password1" "password2" 0 "not-a-hash" (by decide)

/-- C9: `get_optional_user` returns no identity when no credentials are
presented, and returns no identity instead of propagating the error whenever
`get_current_user` rejects the presented token; the function is total, with
no error channel. -/
theorem get_optional_user_none_on_failure (cache : Option Jwks) (t : FedToken)
    (e : HttpError) (h : b2c_get_current_user cache t = .error e) :
    get_optional_user cache none = none ∧ get_optional_user cache (some t) = none := by
  exact ⟨rfl, by simp [get_optional_user, h]⟩

theorem get_optional_user_none_on_failure_witness :
    get_optional_user none none = none
    ∧ get_optional_user none (some (FedToken.garbled "zzz")) = none :=
  get_optional_user_none_on_failure none (FedToken.garbled "zzz") ⟨401, "Invalid token"⟩ rfl

/-- C10: `create_access_token` leaves the caller's claim dictionary
unchanged (it works on a copy), and the issued token's `exp` claim is the
computed expiry — overriding any `exp` the caller supplied — while every
other claim is embedded as given. -/
theorem create_access_token_frame (d : Dict) (ed : Option Int) (now : Int) :
    (create_access_token d ed now).2 = d
    ∧ dget (claims_of (create_access_token d ed now).1) "exp" =
        some (.vInt (token_expiry ed now))
    ∧ (∀ k, k ≠ "exp" → dget (claims_of (create_access_token d ed now).1) k = dget d k) := by
  refine ⟨rfl, ?_, ?_⟩
  · simp [create_access_token, claims_of, dget_dset_self]
  · intro k hk
    simp [create_access_token, claims_of, dget_dset_ne d "exp" k _ hk]

theorem create_access_token_frame_witness :
    (create_access_token [("exp", Val.vInt 999), ("sub", Val.vStr "u1")] (some 60) 0).2 =
      [("exp", Val.vInt 999), ("sub", Val.vStr "u1")]
    ∧ dget (claims_of
        (create_access_token [("exp", Val.vInt 999), ("sub", Val.vStr "u1")] (some 60) 0).1)
        "exp" = some (Val.vInt (token_expiry (some 60) 0))
    ∧ dget (claims_of
        (create_access_token [("exp", Val.vInt 999), ("sub", Val.vStr "u1")] (some 60) 0).1)
        "sub" = some (Val.vStr "u1") := by
  have h := create_access_token_frame [("exp", Val.vInt 999), ("sub", Val.vStr "u1")] (some 60) 0
  exact ⟨h.1, h.2.1, by rw [h.2.2 "sub" (by decide)]; rfl⟩
